import Mathlib

/-!
Shallow embedding of `src/MassiveQC/build_features.py` (pandas pipeline).

Modelling conventions:
* a pandas cell is a `Val`: a missing value (`NaN`), a number (modelled as a
  rational, exact arithmetic standing in for IEEE floats), or a string;
* a `DataFrame` is a column-name list (the schema, in order) together with a
  list of rows, each row being its index label paired with an association
  list from column name to cell; a key absent from a row's association list
  reads as a missing value;
* pandas selection of a list of column labels (`df[cols]`, `df.loc[:, cols]`)
  and `df.drop(cols, axis=1)` raise `KeyError` when any label is missing
  (list-label selection raises since pandas 1.0, `drop` in every version);
  fallible operations therefore return `Except String DataFrame`;
* `DataFrame.sum(axis=1)` skips missing values and returns 0 for an all-missing
  row (pandas default `skipna=True`, `min_count=0`); `groupby(...).agg` with
  `"sum"` likewise returns 0 for a group with no non-missing value, while
  `"mean"` returns a missing value there;
* `groupby` drops rows whose group key is missing, as pandas does; pandas
  orders the groups by sorted key while the model keeps a deduplicated key
  list, a row-order difference no claim depends on;
* reading the parquet/manifest files is a boundary concern: the pipeline
  functions take the already-loaded tables, and writing the output parquet is
  modelled by the `Except.ok` result (`writtenArtifacts`).
-/

set_option maxRecDepth 100000

namespace MassiveQC

/-- A pandas cell: missing (NaN), numeric, or string. -/
inductive Val where
  | na : Val
  | num : ℚ → Val
  | str : String → Val
  deriving DecidableEq, Repr

/-- A row body: association list from column name to cell. -/
abbrev Row := List (String × Val)

/-- Read a cell (first entry with the given label); an absent key is a
missing value. -/
def Row.get : Row → String → Val
  | [], _ => Val.na
  | e :: r, c => if e.1 = c then e.2 else Row.get r c

/-- Set a cell in place (pandas `assign` keeps an existing column's position
and appends a new column at the end). -/
def Row.set : Row → String → Val → Row
  | [], c, v => [(c, v)]
  | e :: r, c, v => if e.1 = c then (c, v) :: r else e :: Row.set r c v

/-- A pandas DataFrame: ordered column names and index-labelled rows. -/
structure DataFrame where
  cols : List String
  rows : List (String × Row)
  deriving DecidableEq, Repr

/-- The index (row labels) of a frame. -/
def DataFrame.index (df : DataFrame) : List String :=
  df.rows.map Prod.fst

/-- Row keys stay within the schema (true of every frame pandas builds). -/
def DataFrame.WF (df : DataFrame) : Prop :=
  ∀ p ∈ df.rows, ∀ e ∈ p.2, e.1 ∈ df.cols

instance (df : DataFrame) : Decidable df.WF := by
  unfold DataFrame.WF; infer_instance

/-- `df.reindex(labels)`: one row per requested label, in request order; a
label absent from `df` gets a fully-missing row. Assumes a unique source
index (pandas raises on duplicate labels there). -/
def DataFrame.reindex (df : DataFrame) (labels : List String) : DataFrame :=
  { cols := df.cols
    rows := labels.map fun l =>
      (l, ((df.rows.find? fun p => p.1 == l).map Prod.snd).getD []) }

/-- `pd.concat(dfs, axis=1, sort=False)`: outer-join the indexes (first
appearance order) and place the sources' columns side by side. Assumes
unique per-source indexes and pairwise-disjoint column sets (pandas raises
on the former and the claims hypothesise the latter). -/
def concatCols (dfs : List DataFrame) : DataFrame :=
  { cols := (dfs.map DataFrame.cols).flatten
    rows := ((dfs.map DataFrame.index).flatten.dedup).map fun l =>
      (l, (dfs.map fun d =>
            ((d.rows.find? fun p => p.1 == l).map Prod.snd).getD []).flatten) }

/-- `workflow_data` (build_features.py lines 109-122): concatenate the source
tables column-wise and reindex against the completion list. The worker pool
only parallelises the reads; results are combined by column, so it is
semantically the plain list of loaded frames. -/
def workflow_data (srrs : List String) (sources : List DataFrame) : DataFrame :=
  (concatCols sources).reindex srrs

/-- `df.join(other)`: left join on the index. Assumes `other` has a unique
index and shares no column with `df` (pandas raises on overlap). -/
def DataFrame.join (df other : DataFrame) : DataFrame :=
  { cols := df.cols ++ other.cols
    rows := df.rows.map fun p =>
      (p.1, p.2 ++ (((other.rows.find? fun q => q.1 == p.1).map Prod.snd).getD [])) }

/-- The manifest frame in two-column mode: columns renamed to `srx`, `srr`
and indexed by `srr` with `drop=False` (build_features.py lines 82-85). -/
def srr_df_grouped (manifest : List (String × String)) : DataFrame :=
  { cols := ["srx", "srr"]
    rows := manifest.map fun p =>
      (p.2, [("srx", Val.str p.1), ("srr", Val.str p.2)]) }

/-- The manifest frame in one-column mode: a single `srr` column indexed by
`srr` with `drop=False` (build_features.py lines 79-81, 85). -/
def srr_df_ungrouped (srrs : List String) : DataFrame :=
  { cols := ["srr"]
    rows := srrs.map fun s => (s, [("srr", Val.str s)]) }

/-- `cols = [f"pos_{i}" for i in range(101)]` (line 131). -/
def posCols : List String :=
  (List.range 101).map fun i => "pos_" ++ toString i

/-- `cols[:33]` (line 132). -/
def five_prime : List String := posCols.take 33

/-- `cols[33:68]` (line 132). -/
def middle : List String := (posCols.drop 33).take 35

/-- `cols[68:]` (line 132). -/
def three_prime : List String := posCols.drop 68

/-- `x[cs].sum(axis=1)` on one row: sum the numeric cells among `cs`,
skipping missing values; an all-missing selection sums to 0. -/
def sumRow (r : Row) (cs : List String) : ℚ :=
  cs.foldl (fun acc c =>
    match Row.get r c with
    | Val.num q => acc + q
    | _ => acc) 0

/-- Adding a column to a schema: `assign` keeps an existing column in place
and appends a new one at the end. -/
def addCol (cols : List String) (name : String) : List String :=
  if name ∈ cols then cols else cols ++ [name]

/-- `df.assign(name=lambda x: x[cs].sum(axis=1))`: raises `KeyError` when a
label of `cs` is missing from the schema, else stores each row's sum. -/
def assignSum (df : DataFrame) (name : String) (cs : List String) :
    Except String DataFrame :=
  if ∀ c ∈ cs, c ∈ df.cols then
    Except.ok
      { cols := addCol df.cols name
        rows := df.rows.map fun p =>
          (p.1, Row.set p.2 name (Val.num (sumRow p.2 cs))) }
  else
    Except.error ("KeyError: columns " ++ name ++ " sources not in index")

/-- `df.drop(cs, axis=1)`: raises `KeyError` when a label of `cs` is missing,
else removes those columns (schema and row entries). -/
def dropColumns (df : DataFrame) (cs : List String) : Except String DataFrame :=
  if ∀ c ∈ cs, c ∈ df.cols then
    Except.ok
      { cols := df.cols.filter fun c => !cs.contains c
        rows := df.rows.map fun p =>
          (p.1, p.2.filter fun e => !cs.contains e.1) }
  else
    Except.error "KeyError: labels not found in axis"

/-- `aggregate_gene_body_coverage` (build_features.py lines 125-138): assign
the three tertile sums over `pos_0..pos_100`, then drop the 101 originals. -/
def aggregate_gene_body_coverage (df : DataFrame) : Except String DataFrame := do
  let d1 ← assignSum df "gene_body_five_prime" five_prime
  let d2 ← assignSum d1 "gene_body_middle" middle
  let d3 ← assignSum d2 "gene_body_three_prime" three_prime
  dropColumns d3 posCols

/-- The action of the coverage reducer on one row (specification device for
the lemmas below): the three tertile sums are assigned in sequence, each
computed from the row as it stands at that point. -/
def gbRow (r : Row) : Row :=
  let r1 := Row.set r "gene_body_five_prime" (Val.num (sumRow r five_prime))
  let r2 := Row.set r1 "gene_body_middle" (Val.num (sumRow r1 middle))
  Row.set r2 "gene_body_three_prime" (Val.num (sumRow r2 three_prime))

/-- The reducer's row after the final drop of the 101 position columns. -/
def gbRowDropped (r : Row) : Row :=
  (gbRow r).filter fun e => !posCols.contains e.1

/-- The reducer's output schema for a given input schema. -/
def gbCols (cols : List String) : List String :=
  (addCol (addCol (addCol cols "gene_body_five_prime") "gene_body_middle")
      "gene_body_three_prime").filter fun c => !posCols.contains c

/-- A declared per-feature reduction function (the values of `FEATURE_AGG`). -/
inductive AggFn where
  | sum : AggFn
  | mean : AggFn
  deriving DecidableEq, Repr

/-- Apply a reduction to a group's cells, pandas semantics: `sum` skips
missing values and yields 0 when none remain; `mean` yields a missing value
when none remain. -/
def applyAgg (fn : AggFn) (vs : List Val) : Val :=
  let nums := vs.filterMap fun v =>
    match v with
    | Val.num q => some q
    | _ => none
  match fn with
  | AggFn.sum => Val.num (nums.foldl (· + ·) 0)
  | AggFn.mean =>
      if nums.isEmpty then Val.na
      else Val.num (nums.foldl (· + ·) 0 / (nums.length : ℚ))

/-- `FEATURE_AGG` (build_features.py lines 30-52), in source order. -/
def FEATURE_AGG : List (String × AggFn) :=
  [("rRNA_pct_reads_mapped", AggFn.mean),
   ("too_short", AggFn.sum),
   ("num_reads", AggFn.sum),
   ("num_multimappers", AggFn.sum),
   ("per_alignment", AggFn.mean),
   ("reads_MQ0", AggFn.sum),
   ("average_quality", AggFn.mean),
   ("Percent Reverse", AggFn.mean),
   ("percent_utr_bases", AggFn.mean),
   ("percent_intronic_bases", AggFn.mean),
   ("percent_intergenic_bases", AggFn.mean),
   ("percent_mrna_bases", AggFn.mean),
   ("median_cv_coverage", AggFn.mean),
   ("percent_duplication", AggFn.mean),
   ("number_genic_reads", AggFn.sum),
   ("percent_genes_on", AggFn.mean),
   ("number_junction_reads", AggFn.sum),
   ("number_junctions_on", AggFn.sum),
   ("gene_body_five_prime", AggFn.mean),
   ("gene_body_middle", AggFn.mean),
   ("gene_body_three_prime", AggFn.mean)]

/-- `FEATURE_RENAME` (build_features.py lines 54-61). -/
def FEATURE_RENAME : List (String × String) :=
  [("rRNA_pct_reads_mapped", "percent_rrna_reads"),
   ("too_short", "number_reads_too_short"),
   ("num_reads", "number_reads"),
   ("num_multimappers", "number_multimapping_reads"),
   ("per_alignment", "percent_alignment"),
   ("Percent Reverse", "percent_reverse")]

/-- The column-name map induced by a rename table: a name outside the table
passes through unchanged. -/
def renameOf (m : List (String × String)) (c : String) : String :=
  (List.lookup c m).getD c

/-- `df.rename(columns=m)`. -/
def renameCols (df : DataFrame) (m : List (String × String)) : DataFrame :=
  { cols := df.cols.map (renameOf m)
    rows := df.rows.map fun p =>
      (p.1, p.2.map fun e => (renameOf m e.1, e.2)) }

/-- The distinct group keys of `groupby(key)`: the rows' key cells with
missing keys dropped (pandas drops NaN group keys), deduplicated. -/
def groupKeys (df : DataFrame) (key : String) : List Val :=
  ((df.rows.map fun p => Row.get p.2 key).filter fun v => v ≠ Val.na).dedup

/-- The index label an aggregated group gets (the `srx` string itself). -/
def valLabel : Val → String
  | Val.na => ""
  | Val.num q => toString q
  | Val.str s => s

/-- `df.groupby(key).agg(spec)`: raises `KeyError` when a column of `spec`
is missing from the schema; else one output row per distinct non-missing
key, each declared column reduced by its declared function over the group. -/
def groupby_agg (df : DataFrame) (key : String) (spec : List (String × AggFn)) :
    Except String DataFrame :=
  if ∀ s ∈ spec, s.1 ∈ df.cols then
    Except.ok
      { cols := spec.map Prod.fst
        rows := (groupKeys df key).map fun k =>
          (valLabel k,
           spec.map fun s =>
             (s.1, applyAgg s.2
               (((df.rows.filter fun p => Row.get p.2 key == k).map
                  fun p => Row.get p.2 s.1)))) }
  else
    Except.error "KeyError: agg column does not exist"

/-- `df.loc[:, cs]`: raises `KeyError` when a label of `cs` is missing, else
selects exactly those columns, rows untouched. -/
def locCols (df : DataFrame) (cs : List String) : Except String DataFrame :=
  if ∀ c ∈ cs, c ∈ df.cols then
    Except.ok
      { cols := cs
        rows := df.rows.map fun p =>
          (p.1, cs.map fun c => (c, Row.get p.2 c)) }
  else
    Except.error "KeyError: loc columns not in index"

/-- `build_features`, two-column manifest branch (build_features.py lines
88-97): join the loaded sources with the manifest, reduce coverage, group by
`srx` under `FEATURE_AGG`, rename, and write the result parquet (the
`Except.ok` payload). -/
def build_features_grouped (sources : List DataFrame)
    (manifest : List (String × String)) (done_srrs : List String) :
    Except String DataFrame := do
  let joined := (workflow_data done_srrs sources).join (srr_df_grouped manifest)
  let reduced ← aggregate_gene_body_coverage joined
  let agged ← groupby_agg reduced "srx" FEATURE_AGG
  pure (renameCols agged FEATURE_RENAME)

/-- `build_features`, one-column manifest branch (build_features.py lines
98-106): join, reduce coverage, select the `FEATURE_AGG` columns, rename,
and write the result parquet (the `Except.ok` payload). -/
def build_features_ungrouped (sources : List DataFrame)
    (done_srrs : List String) : Except String DataFrame := do
  let joined := (workflow_data done_srrs sources).join
    (srr_df_ungrouped done_srrs)
  let reduced ← aggregate_gene_body_coverage joined
  let sel ← locCols reduced (FEATURE_AGG.map Prod.fst)
  pure (renameCols sel FEATURE_RENAME)

/-- The artifacts a pipeline invocation writes: the single `features.parquet`
on success, nothing on failure (`to_parquet` is the last step of the chain,
so any raised error prevents the write). -/
def writtenArtifacts (r : Except String DataFrame) : List DataFrame :=
  match r with
  | Except.ok df => [df]
  | Except.error _ => []

/-! ### Lemmas about rows and row sums -/

theorem Row.get_set_self (r : Row) (c : String) (v : Val) :
    Row.get (Row.set r c v) c = v := by
  induction r with
  | nil => simp [Row.set, Row.get]
  | cons e r ih =>
    by_cases h : e.1 = c
    · simp [Row.set, h, Row.get]
    · simp [Row.set, h, Row.get, ih]

theorem Row.get_set_ne (r : Row) (c d : String) (v : Val) (h : d ≠ c) :
    Row.get (Row.set r c v) d = Row.get r d := by
  have h' : c ≠ d := h.symm
  induction r with
  | nil => simp [Row.set, Row.get, h']
  | cons e r ih =>
    by_cases he : e.1 = c
    · simp [Row.set, he, Row.get, h']
    · simp [Row.set, he, Row.get, ih]

theorem Row.get_filterKeys (r : Row) (cs : List String) (c : String)
    (h : c ∉ cs) : Row.get (r.filter fun e => !cs.contains e.1) c = Row.get r c := by
  induction r with
  | nil => rfl
  | cons e r ih =>
    rw [List.filter_cons]
    by_cases he : e.1 ∈ cs
    · have hne : e.1 ≠ c := fun hc => h (hc ▸ he)
      have hb : (!cs.contains e.1) = false := by simpa using he
      rw [hb, if_neg (by simp)]
      rw [ih]
      show _ = Row.get (e :: r) c
      rw [Row.get, if_neg hne]
    · have hb : (!cs.contains e.1) = true := by simpa using he
      rw [hb, if_pos rfl]
      show Row.get (e :: _) c = Row.get (e :: r) c
      rw [Row.get, Row.get, ih]

theorem Row.get_append_right (r s : Row) (c : String)
    (h : ∀ e ∈ r, e.1 ≠ c) : Row.get (r ++ s) c = Row.get s c := by
  induction r with
  | nil => simp
  | cons e r ih =>
    have := h e (by simp)
    simp only [List.cons_append, Row.get, this, if_neg this]
    exact ih fun e he => h e (by simp [he])

/-- Numeric reading of a cell: the contribution a cell makes to a pandas
`sum` with `skipna=True`. -/
def valQ : Val → ℚ
  | Val.num q => q
  | _ => 0

theorem sumRow_eq_sum (r : Row) (cs : List String) :
    sumRow r cs = (cs.map fun c => valQ (Row.get r c)).sum := by
  have key : ∀ (cs : List String) (a : ℚ),
      List.foldl (fun acc c =>
        match Row.get r c with
        | Val.num q => acc + q
        | _ => acc) a cs = a + (cs.map fun c => valQ (Row.get r c)).sum := by
    intro cs
    induction cs with
    | nil => intro a; simp
    | cons c cs ih =>
      intro a
      rcases hv : Row.get r c with _ | q | s
      all_goals simp [List.foldl_cons, hv, ih, valQ]
      all_goals ring
  simpa [sumRow] using key cs 0

theorem sumRow_append (r : Row) (cs ds : List String) :
    sumRow r (cs ++ ds) = sumRow r cs + sumRow r ds := by
  simp [sumRow_eq_sum]

theorem sumRow_congr (r r' : Row) (cs : List String)
    (h : ∀ c ∈ cs, Row.get r' c = Row.get r c) : sumRow r' cs = sumRow r cs := by
  simp only [sumRow_eq_sum]
  exact congrArg List.sum (List.map_congr_left fun c hc => by rw [h c hc])

theorem sumRow_eq_zero (r : Row) (cs : List String)
    (h : ∀ c ∈ cs, Row.get r c = Val.na) : sumRow r cs = 0 := by
  rw [sumRow_eq_sum]
  exact List.sum_eq_zero fun x hx => by
    rcases List.mem_map.mp hx with ⟨c, hc, rfl⟩
    rw [h c hc]; rfl

/-! ### Facts about the position columns and their tertile partition -/

theorem parts_eq_posCols : five_prime ++ (middle ++ three_prime) = posCols := by decide

theorem five_prime_subset : five_prime ⊆ posCols := List.take_subset _ _

theorem middle_subset : middle ⊆ posCols :=
  fun _ h => List.drop_subset _ _ (List.take_subset _ _ h)

theorem three_prime_subset : three_prime ⊆ posCols := List.drop_subset _ _

theorem gene_five_not_pos : "gene_body_five_prime" ∉ posCols := by decide

theorem gene_middle_not_pos : "gene_body_middle" ∉ posCols := by decide

theorem gene_three_not_pos : "gene_body_three_prime" ∉ posCols := by decide

theorem sumRow_split (r : Row) :
    sumRow r five_prime + sumRow r middle + sumRow r three_prime = sumRow r posCols := by
  rw [← parts_eq_posCols, sumRow_append, sumRow_append, add_assoc]

/-! ### Inversion lemmas for the fallible frame operations -/

theorem mem_addCol {cols : List String} {n c : String} :
    c ∈ addCol cols n ↔ c ∈ cols ∨ c = n := by
  unfold addCol
  split
  · constructor
    · exact Or.inl
    · rintro (hc | rfl)
      · exact hc
      · assumption
  · simp

theorem assignSum_ok_of (df : DataFrame) (n : String) (cs : List String)
    (h : ∀ c ∈ cs, c ∈ df.cols) :
    assignSum df n cs = Except.ok
      { cols := addCol df.cols n
        rows := df.rows.map fun p =>
          (p.1, Row.set p.2 n (Val.num (sumRow p.2 cs))) } := by
  unfold assignSum
  rw [if_pos h]

theorem assignSum_error_of (df : DataFrame) (n : String) (cs : List String)
    (h : ¬ ∀ c ∈ cs, c ∈ df.cols) :
    ∃ e, assignSum df n cs = Except.error e :=
  ⟨"KeyError: columns " ++ n ++ " sources not in index", by
    unfold assignSum
    rw [if_neg h]⟩

theorem assignSum_ok_inv {df : DataFrame} {n : String} {cs : List String}
    {d : DataFrame} (h : assignSum df n cs = Except.ok d) :
    (∀ c ∈ cs, c ∈ df.cols) ∧
      d = { cols := addCol df.cols n
            rows := df.rows.map fun p =>
              (p.1, Row.set p.2 n (Val.num (sumRow p.2 cs))) } := by
  unfold assignSum at h
  split at h
  · exact ⟨by assumption, (Except.ok.inj h).symm⟩
  · exact absurd h (by simp)

theorem dropColumns_ok_of (df : DataFrame) (cs : List String)
    (h : ∀ c ∈ cs, c ∈ df.cols) :
    dropColumns df cs = Except.ok
      { cols := df.cols.filter fun c => !cs.contains c
        rows := df.rows.map fun p =>
          (p.1, p.2.filter fun e => !cs.contains e.1) } := by
  unfold dropColumns
  rw [if_pos h]

theorem dropColumns_error_of (df : DataFrame) (cs : List String)
    (h : ¬ ∀ c ∈ cs, c ∈ df.cols) :
    ∃ e, dropColumns df cs = Except.error e :=
  ⟨"KeyError: labels not found in axis", by
    unfold dropColumns
    rw [if_neg h]⟩

/-- Inverting a successful `Except` bind (the steps of a `do` pipeline). -/
theorem except_bind_ok {α β : Type} {x : Except String α}
    {f : α → Except String β} {b : β} (h : (x >>= f) = Except.ok b) :
    ∃ a, x = Except.ok a ∧ f a = Except.ok b := by
  cases x with
  | error e =>
      exact absurd (show (Except.error e : Except String β) = Except.ok b from h)
        (by simp)
  | ok a => exact ⟨a, rfl, h⟩

/-- An `Except` bind whose first step fails, fails. -/
theorem except_bind_error {α β : Type} {x : Except String α}
    {f : α → Except String β} {e : String} (h : x = Except.error e) :
    (x >>= f) = Except.error e := by
  subst h
  rfl

theorem dropColumns_ok_inv {df : DataFrame} {cs : List String} {d : DataFrame}
    (h : dropColumns df cs = Except.ok d) :
    (∀ c ∈ cs, c ∈ df.cols) ∧
      d = { cols := df.cols.filter fun c => !cs.contains c
            rows := df.rows.map fun p =>
              (p.1, p.2.filter fun e => !cs.contains e.1) } := by
  unfold dropColumns at h
  split at h
  · exact ⟨by assumption, (Except.ok.inj h).symm⟩
  · exact absurd h (by simp)

/-! ### The coverage reducer, solved -/

theorem aggregate_eq_ok (df : DataFrame) (h : ∀ c ∈ posCols, c ∈ df.cols) :
    aggregate_gene_body_coverage df = Except.ok
      { cols := gbCols df.cols
        rows := df.rows.map fun p => (p.1, gbRowDropped p.2) } := by
  have h5 : ∀ c ∈ five_prime, c ∈ df.cols :=
    fun c hc => h c (five_prime_subset hc)
  have hm : ∀ c ∈ middle, c ∈ addCol df.cols "gene_body_five_prime" :=
    fun c hc => mem_addCol.mpr (Or.inl (h c (middle_subset hc)))
  have ht : ∀ c ∈ three_prime,
      c ∈ addCol (addCol df.cols "gene_body_five_prime") "gene_body_middle" :=
    fun c hc =>
      mem_addCol.mpr (Or.inl (mem_addCol.mpr (Or.inl (h c (three_prime_subset hc)))))
  have hd : ∀ c ∈ posCols,
      c ∈ addCol (addCol (addCol df.cols "gene_body_five_prime") "gene_body_middle")
        "gene_body_three_prime" :=
    fun c hc =>
      mem_addCol.mpr (Or.inl (mem_addCol.mpr (Or.inl (mem_addCol.mpr (Or.inl (h c hc))))))
  unfold aggregate_gene_body_coverage
  rw [assignSum_ok_of df _ _ h5]
  show (assignSum _ "gene_body_middle" middle).bind _ = _
  rw [assignSum_ok_of _ _ _ hm]
  show (assignSum _ "gene_body_three_prime" three_prime).bind _ = _
  rw [assignSum_ok_of _ _ _ ht]
  show dropColumns _ posCols = _
  rw [dropColumns_ok_of _ _ hd]
  simp only [List.map_map, Except.ok.injEq, DataFrame.mk.injEq]
  constructor
  · rfl
  · refine List.map_congr_left fun p _ => ?_
    simp only [Function.comp]
    rfl

theorem aggregate_ok_inv {df out : DataFrame}
    (h : aggregate_gene_body_coverage df = Except.ok out) :
    (∀ c ∈ posCols, c ∈ df.cols) ∧
      out = { cols := gbCols df.cols
              rows := df.rows.map fun p => (p.1, gbRowDropped p.2) } := by
  have hpos : ∀ c ∈ posCols, c ∈ df.cols := by
    unfold aggregate_gene_body_coverage at h
    obtain ⟨d1, h1, h⟩ := except_bind_ok h
    obtain ⟨d2, h2, h⟩ := except_bind_ok h
    obtain ⟨d3, h3, h4⟩ := except_bind_ok h
    obtain ⟨hc5, hd1⟩ := assignSum_ok_inv h1
    obtain ⟨hcm, hd2⟩ := assignSum_ok_inv h2
    obtain ⟨hct, hd3⟩ := assignSum_ok_inv h3
    obtain ⟨hcp, _⟩ := dropColumns_ok_inv h4
    intro c hc
    have hc3 : c ∈ d3.cols := hcp c hc
    have hc2 : c ∈ d2.cols := by
      rcases mem_addCol.mp (hd3 ▸ hc3 : c ∈ addCol d2.cols _) with h' | rfl
      · exact h'
      · exact absurd hc gene_three_not_pos
    have hc1 : c ∈ d1.cols := by
      rcases mem_addCol.mp (hd2 ▸ hc2 : c ∈ addCol d1.cols _) with h' | rfl
      · exact h'
      · exact absurd hc gene_middle_not_pos
    rcases mem_addCol.mp (hd1 ▸ hc1 : c ∈ addCol df.cols _) with h' | rfl
    · exact h'
    · exact absurd hc gene_five_not_pos
  refine ⟨hpos, ?_⟩
  rw [aggregate_eq_ok df hpos] at h
  exact (Except.ok.inj h).symm

theorem gbRowDropped_get_five (r : Row) :
    Row.get (gbRowDropped r) "gene_body_five_prime" = Val.num (sumRow r five_prime) := by
  unfold gbRowDropped gbRow
  rw [Row.get_filterKeys _ _ _ gene_five_not_pos]
  rw [Row.get_set_ne _ _ _ _ (by decide)]
  rw [Row.get_set_ne _ _ _ _ (by decide)]
  exact Row.get_set_self _ _ _

theorem gbRowDropped_get_middle (r : Row) :
    Row.get (gbRowDropped r) "gene_body_middle" = Val.num (sumRow r middle) := by
  unfold gbRowDropped gbRow
  rw [Row.get_filterKeys _ _ _ gene_middle_not_pos]
  rw [Row.get_set_ne _ _ _ _ (by decide)]
  rw [Row.get_set_self]
  congr 1
  refine sumRow_congr _ _ _ fun c hc => ?_
  refine Row.get_set_ne _ _ _ _ fun hce => ?_
  exact gene_five_not_pos (hce ▸ middle_subset hc)

theorem gbRowDropped_get_three (r : Row) :
    Row.get (gbRowDropped r) "gene_body_three_prime" = Val.num (sumRow r three_prime) := by
  unfold gbRowDropped gbRow
  rw [Row.get_filterKeys _ _ _ gene_three_not_pos]
  rw [Row.get_set_self]
  congr 1
  have h1 : ∀ c ∈ three_prime,
      Row.get (Row.set r "gene_body_five_prime" (Val.num (sumRow r five_prime))) c
        = Row.get r c := fun c hc =>
    Row.get_set_ne _ _ _ _ fun hce => gene_five_not_pos (hce ▸ three_prime_subset hc)
  refine Eq.trans (sumRow_congr _ _ _ fun c hc => ?_) (sumRow_congr _ _ _ h1)
  refine Row.get_set_ne _ _ _ _ fun hce => ?_
  exact gene_middle_not_pos (hce ▸ three_prime_subset hc)

theorem gbRowDropped_get_other (r : Row) (c : String) (hp : c ∉ posCols)
    (hf : c ≠ "gene_body_five_prime") (hm : c ≠ "gene_body_middle")
    (ht : c ≠ "gene_body_three_prime") :
    Row.get (gbRowDropped r) c = Row.get r c := by
  unfold gbRowDropped gbRow
  rw [Row.get_filterKeys _ _ _ hp]
  rw [Row.get_set_ne _ _ _ _ ht, Row.get_set_ne _ _ _ _ hm, Row.get_set_ne _ _ _ _ hf]

theorem zip_map_self {α β : Type} (l : List α) (f : α → β) :
    l.zip (l.map f) = l.map fun a => (a, f a) := by
  induction l with
  | nil => rfl
  | cons a l ih => simp [ih]

/-! ### Concrete frames used by witnesses and counterexamples -/

/-- A row whose 101 position cells are all `1.0`. -/
def onesRow : Row := posCols.map fun c => (c, Val.num 1)

/-- One run whose 101 position columns are all `1.0`. -/
def dfOnes : DataFrame :=
  { cols := posCols
    rows := [("SRR_ones", onesRow)] }

theorem sumRow_ones_five : sumRow onesRow five_prime = 33 := by
  rw [sumRow_eq_sum]
  have h : (five_prime.map fun c => valQ (Row.get onesRow c))
      = List.replicate 33 (1 : ℚ) := by decide
  rw [h, List.sum_replicate]
  simp

theorem sumRow_ones_middle : sumRow onesRow middle = 35 := by
  rw [sumRow_eq_sum]
  have h : (middle.map fun c => valQ (Row.get onesRow c))
      = List.replicate 35 (1 : ℚ) := by decide
  rw [h, List.sum_replicate]
  simp

theorem sumRow_ones_three : sumRow onesRow three_prime = 33 := by
  rw [sumRow_eq_sum]
  have h : (three_prime.map fun c => valQ (Row.get onesRow c))
      = List.replicate 33 (1 : ℚ) := by decide
  rw [h, List.sum_replicate]
  simp

/-- One run with all 101 position columns present in the schema but every
cell missing. -/
def dfAllNa : DataFrame :=
  { cols := posCols
    rows := [("SRR_na", posCols.map fun c => (c, Val.na))] }

/-- A frame holding 100 of the 101 position columns: `pos_0` is absent. -/
def dfPartial : DataFrame :=
  { cols := posCols.drop 1
    rows := [("SRR_part", (posCols.drop 1).map fun c => (c, Val.num 1))] }

/-! ### Claims -/

/-- C1: when all 101 position columns `pos_0..pos_100` are present, the
coverage reducer succeeds and sets `gene_body_five_prime`,
`gene_body_middle`, `gene_body_three_prime` to the row-wise sums over the
ranges `[0,33)`, `[33,68)`, `[68,101)`, whose total equals the sum over all
101 position columns; a row of 101 ones yields 33.0, 35.0, 33.0. -/
theorem claim_C1 :
    (∀ df : DataFrame, (∀ c ∈ posCols, c ∈ df.cols) →
      ∃ out, aggregate_gene_body_coverage df = Except.ok out ∧
        out.rows.length = df.rows.length ∧
        ∀ pq ∈ df.rows.zip out.rows,
          Row.get pq.2.2 "gene_body_five_prime" = Val.num (sumRow pq.1.2 five_prime) ∧
          Row.get pq.2.2 "gene_body_middle" = Val.num (sumRow pq.1.2 middle) ∧
          Row.get pq.2.2 "gene_body_three_prime" = Val.num (sumRow pq.1.2 three_prime) ∧
          sumRow pq.1.2 five_prime + sumRow pq.1.2 middle + sumRow pq.1.2 three_prime
            = sumRow pq.1.2 posCols) ∧
    ((aggregate_gene_body_coverage dfOnes).toOption.map fun out =>
        out.rows.map fun q =>
          (Row.get q.2 "gene_body_five_prime", Row.get q.2 "gene_body_middle",
            Row.get q.2 "gene_body_three_prime"))
      = some [(Val.num 33, Val.num 35, Val.num 33)] := by
  constructor
  · intro df h
    refine ⟨_, aggregate_eq_ok df h, by simp, ?_⟩
    intro pq hpq
    rw [zip_map_self] at hpq
    rcases List.mem_map.mp hpq with ⟨p, _, rfl⟩
    exact ⟨gbRowDropped_get_five p.2, gbRowDropped_get_middle p.2,
      gbRowDropped_get_three p.2, sumRow_split p.2⟩
  · rw [aggregate_eq_ok dfOnes (by decide)]
    show some _ = _
    rw [Option.some.injEq]
    show [((gbRowDropped onesRow).get "gene_body_five_prime",
      (gbRowDropped onesRow).get "gene_body_middle",
      (gbRowDropped onesRow).get "gene_body_three_prime")] = _
    rw [gbRowDropped_get_five, gbRowDropped_get_middle, gbRowDropped_get_three,
      sumRow_ones_five, sumRow_ones_middle, sumRow_ones_three]

/-- Witness for C1 at the all-ones frame. -/
theorem claim_C1_witness :
    ∃ out, aggregate_gene_body_coverage dfOnes = Except.ok out ∧
      out.rows.length = dfOnes.rows.length ∧
      ∀ pq ∈ dfOnes.rows.zip out.rows,
        Row.get pq.2.2 "gene_body_five_prime" = Val.num (sumRow pq.1.2 five_prime) ∧
        Row.get pq.2.2 "gene_body_middle" = Val.num (sumRow pq.1.2 middle) ∧
        Row.get pq.2.2 "gene_body_three_prime" = Val.num (sumRow pq.1.2 three_prime) ∧
        sumRow pq.1.2 five_prime + sumRow pq.1.2 middle + sumRow pq.1.2 three_prime
          = sumRow pq.1.2 posCols :=
  claim_C1.1 dfOnes (by decide)

/-- C2 counterexample: on a table holding 100 of the 101 position columns
(`pos_0` absent), the reducer raises a missing-column `KeyError` instead of
summing the columns that exist. -/
theorem claim_C2_counterexample :
    aggregate_gene_body_coverage dfPartial
      = Except.error "KeyError: columns gene_body_five_prime sources not in index"
      ∧ ∀ out, aggregate_gene_body_coverage dfPartial ≠ Except.ok out := by
  constructor
  · rfl
  · intro out h
    rw [show aggregate_gene_body_coverage dfPartial
        = Except.error "KeyError: columns gene_body_five_prime sources not in index"
      from rfl] at h
    exact Except.noConfusion h

/-- C2 (amended): when any of the 101 position columns is missing from the
input table, the coverage reducer fails with a missing-column error — the
list-label selection raises a `KeyError` — rather than summing only the
columns that exist. -/
theorem claim_C2 (df : DataFrame) (h : ∃ c ∈ posCols, c ∉ df.cols) :
    ∃ e, aggregate_gene_body_coverage df = Except.error e := by
  rcases hres : aggregate_gene_body_coverage df with e | out
  · exact ⟨e, rfl⟩
  · rcases h with ⟨c, hc, hnc⟩
    exact absurd ((aggregate_ok_inv hres).1 c hc) hnc

/-- Witness for C2 at the frame missing `pos_0`. -/
theorem claim_C2_witness :
    ∃ e, aggregate_gene_body_coverage dfPartial = Except.error e :=
  claim_C2 dfPartial (by decide)

/-- The reducer's own output, for the all-ones frame. -/
def aggOnes : DataFrame :=
  (aggregate_gene_body_coverage dfOnes).toOption.getD ⟨[], []⟩

/-- C3: applying the coverage reducer to a table without the 101 position
columns — in particular to its own output, which dropped them all — fails
with a missing-column error and never silently succeeds as a no-op. -/
theorem claim_C3 :
    (∀ df : DataFrame, (∀ c ∈ posCols, c ∉ df.cols) →
      ∃ e, aggregate_gene_body_coverage df = Except.error e) ∧
    (∀ df out : DataFrame, aggregate_gene_body_coverage df = Except.ok out →
      ∃ e, aggregate_gene_body_coverage out = Except.error e) := by
  have part1 : ∀ df : DataFrame, (∀ c ∈ posCols, c ∉ df.cols) →
      ∃ e, aggregate_gene_body_coverage df = Except.error e := by
    intro df h
    rcases hres : aggregate_gene_body_coverage df with e | o
    · exact ⟨e, rfl⟩
    · have := (aggregate_ok_inv hres).1 "pos_0" (by decide)
      exact absurd this (h "pos_0" (by decide))
  refine ⟨part1, fun df out h => part1 out ?_⟩
  intro c hc hmem
  obtain ⟨-, rfl⟩ := aggregate_ok_inv h
  rcases List.mem_filter.mp hmem with ⟨-, hb⟩
  rw [Bool.not_eq_eq_eq_not, Bool.not_true] at hb
  exact absurd (by simpa using hb) (by simpa using hc)

/-- Witness for C3: the all-ones frame reduces successfully, and reducing
that output again fails. -/
theorem claim_C3_witness :
    ∃ e, aggregate_gene_body_coverage aggOnes = Except.error e :=
  claim_C3.2 dfOnes aggOnes (by rfl)

/-- A frame with one non-position passthrough column beside the 101
position columns. -/
def dfMixed : DataFrame :=
  { cols := "sample_col" :: posCols
    rows := [("SRR_mix", ("sample_col", Val.str "keep") :: onesRow)] }

/-- C4: the reducer's output drops all 101 position columns, appends exactly
the three tertile columns, keeps the row labels, and passes every other
column through with unchanged values. -/
theorem claim_C4 (df : DataFrame) (hall : ∀ c ∈ posCols, c ∈ df.cols)
    (hf : "gene_body_five_prime" ∉ df.cols) (hm : "gene_body_middle" ∉ df.cols)
    (ht : "gene_body_three_prime" ∉ df.cols) :
    ∃ out, aggregate_gene_body_coverage df = Except.ok out ∧
      (∀ c ∈ posCols, c ∉ out.cols) ∧
      out.cols = (df.cols.filter fun c => !posCols.contains c)
        ++ ["gene_body_five_prime", "gene_body_middle", "gene_body_three_prime"] ∧
      out.rows.map Prod.fst = df.rows.map Prod.fst ∧
      ∀ pq ∈ df.rows.zip out.rows, ∀ c ∈ df.cols, c ∉ posCols →
        Row.get pq.2.2 c = Row.get pq.1.2 c := by
  refine ⟨_, aggregate_eq_ok df hall, ?_, ?_, by simp, ?_⟩
  · intro c hc hmem
    rcases List.mem_filter.mp hmem with ⟨-, hb⟩
    rw [Bool.not_eq_eq_eq_not, Bool.not_true] at hb
    exact absurd (by simpa using hb) (by simpa using hc)
  · show gbCols df.cols = _
    unfold gbCols
    have h1 : addCol df.cols "gene_body_five_prime" = df.cols ++ ["gene_body_five_prime"] := by
      unfold addCol
      rw [if_neg hf]
    have hm' : "gene_body_middle" ∉ df.cols ++ ["gene_body_five_prime"] := by
      simp only [List.mem_append, List.mem_singleton]
      rintro (h' | h')
      · exact hm h'
      · exact absurd h' (by decide)
    have h2 : addCol (df.cols ++ ["gene_body_five_prime"]) "gene_body_middle"
        = df.cols ++ ["gene_body_five_prime", "gene_body_middle"] := by
      unfold addCol
      rw [if_neg hm']
      simp
    have ht' : "gene_body_three_prime"
        ∉ df.cols ++ ["gene_body_five_prime", "gene_body_middle"] := by
      simp only [List.mem_append, List.mem_cons, List.mem_singleton]
      rintro (h' | h' | h')
      · exact ht h'
      · exact absurd h' (by decide)
      · exact absurd h' (by decide)
    have h3 : addCol (df.cols ++ ["gene_body_five_prime", "gene_body_middle"])
          "gene_body_three_prime"
        = df.cols
          ++ ["gene_body_five_prime", "gene_body_middle", "gene_body_three_prime"] := by
      unfold addCol
      rw [if_neg ht']
      simp
    rw [h1, h2, h3, List.filter_append]
    congr 1
  · intro pq hpq c hcdf hcpos
    rw [zip_map_self] at hpq
    rcases List.mem_map.mp hpq with ⟨p, -, rfl⟩
    exact gbRowDropped_get_other p.2 c hcpos (fun h' => hf (h' ▸ hcdf))
      (fun h' => hm (h' ▸ hcdf)) (fun h' => ht (h' ▸ hcdf))

/-- Witness for C4 at a frame with one passthrough column and the 101
position columns. -/
theorem claim_C4_witness :
    ∃ out, aggregate_gene_body_coverage dfMixed = Except.ok out ∧
      (∀ c ∈ posCols, c ∉ out.cols) ∧
      out.cols = (dfMixed.cols.filter fun c => !posCols.contains c)
        ++ ["gene_body_five_prime", "gene_body_middle", "gene_body_three_prime"] ∧
      out.rows.map Prod.fst = dfMixed.rows.map Prod.fst ∧
      ∀ pq ∈ dfMixed.rows.zip out.rows, ∀ c ∈ dfMixed.cols, c ∉ posCols →
        Row.get pq.2.2 c = Row.get pq.1.2 c :=
  claim_C4 dfMixed (by decide) (by decide) (by decide) (by decide)

/-- C10: a row with all 101 position columns present but every cell missing
yields `0.0` (not a missing value) for each of the three tertile columns:
the sum-of-nothing policy is "missing treated as zero". -/
theorem claim_C10 (df : DataFrame) (hall : ∀ c ∈ posCols, c ∈ df.cols) :
    ∃ out, aggregate_gene_body_coverage df = Except.ok out ∧
      ∀ pq ∈ df.rows.zip out.rows,
        (∀ c ∈ posCols, Row.get pq.1.2 c = Val.na) →
          Row.get pq.2.2 "gene_body_five_prime" = Val.num 0 ∧
          Row.get pq.2.2 "gene_body_middle" = Val.num 0 ∧
          Row.get pq.2.2 "gene_body_three_prime" = Val.num 0 := by
  refine ⟨_, aggregate_eq_ok df hall, ?_⟩
  intro pq hpq hna
  rw [zip_map_self] at hpq
  rcases List.mem_map.mp hpq with ⟨p, -, rfl⟩
  refine ⟨?_, ?_, ?_⟩
  · rw [gbRowDropped_get_five,
      sumRow_eq_zero _ _ fun c hc => hna c (five_prime_subset hc)]
  · rw [gbRowDropped_get_middle,
      sumRow_eq_zero _ _ fun c hc => hna c (middle_subset hc)]
  · rw [gbRowDropped_get_three,
      sumRow_eq_zero _ _ fun c hc => hna c (three_prime_subset hc)]

/-- Witness for C10 at the all-missing frame. -/
theorem claim_C10_witness :
    ∃ out, aggregate_gene_body_coverage dfAllNa = Except.ok out ∧
      ∀ pq ∈ dfAllNa.rows.zip out.rows,
        (∀ c ∈ posCols, Row.get pq.1.2 c = Val.na) →
          Row.get pq.2.2 "gene_body_five_prime" = Val.num 0 ∧
          Row.get pq.2.2 "gene_body_middle" = Val.num 0 ∧
          Row.get pq.2.2 "gene_body_three_prime" = Val.num 0 :=
  claim_C10 dfAllNa (by decide)

/-! ### Lemmas about the aggregator, selector and loader -/

theorem groupby_agg_ok_inv {df : DataFrame} {key : String}
    {spec : List (String × AggFn)} {out : DataFrame}
    (h : groupby_agg df key spec = Except.ok out) :
    (∀ s ∈ spec, s.1 ∈ df.cols) ∧
      out = { cols := spec.map Prod.fst
              rows := (groupKeys df key).map fun k =>
                (valLabel k,
                 spec.map fun s =>
                   (s.1, applyAgg s.2
                     (((df.rows.filter fun p => Row.get p.2 key == k).map
                        fun p => Row.get p.2 s.1)))) } := by
  unfold groupby_agg at h
  split at h
  · exact ⟨by assumption, (Except.ok.inj h).symm⟩
  · exact absurd h (by simp)

theorem groupby_agg_error_of (df : DataFrame) (key : String)
    (spec : List (String × AggFn)) (h : ¬ ∀ s ∈ spec, s.1 ∈ df.cols) :
    groupby_agg df key spec = Except.error "KeyError: agg column does not exist" := by
  unfold groupby_agg
  rw [if_neg h]

theorem locCols_ok_inv {df : DataFrame} {cs : List String} {out : DataFrame}
    (h : locCols df cs = Except.ok out) :
    (∀ c ∈ cs, c ∈ df.cols) ∧
      out = { cols := cs
              rows := df.rows.map fun p =>
                (p.1, cs.map fun c => (c, Row.get p.2 c)) } := by
  unfold locCols at h
  split at h
  · exact ⟨by assumption, (Except.ok.inj h).symm⟩
  · exact absurd h (by simp)

theorem locCols_error_of (df : DataFrame) (cs : List String)
    (h : ¬ ∀ c ∈ cs, c ∈ df.cols) :
    locCols df cs = Except.error "KeyError: loc columns not in index" := by
  unfold locCols
  rw [if_neg h]

theorem workflow_data_rows (srrs : List String) (sources : List DataFrame) :
    (workflow_data srrs sources).rows = srrs.map fun l =>
      (l, (((concatCols sources).rows.find? fun p => p.1 == l).map Prod.snd).getD []) :=
  rfl

theorem map_fst_map_pair {α β : Type} (l : List α) (f : α → β) :
    (l.map fun a => (a, f a)).map Prod.fst = l := by
  induction l with
  | nil => rfl
  | cons a l ih => simp [ih]

theorem workflow_data_index (srrs : List String) (sources : List DataFrame) :
    (workflow_data srrs sources).index = srrs := by
  unfold DataFrame.index
  rw [workflow_data_rows]
  exact map_fst_map_pair srrs _

theorem concat_find_eq_none {dfs : List DataFrame} {l : String}
    (h : ∀ d ∈ dfs, l ∉ d.index) :
    ((concatCols dfs).rows.find? fun p => p.1 == l) = none := by
  rw [List.find?_eq_none]
  intro p hp hbeq
  rcases List.mem_map.mp hp with ⟨l', hl', heq⟩
  have hfst : p.1 = l' := by rw [← heq]
  have : l' = l := by
    have := of_decide_eq_true hbeq
    rw [hfst] at this
    exact this
  subst this
  rcases List.mem_flatten.mp (List.mem_dedup.mp hl') with ⟨ix, hix, hmem⟩
  rcases List.mem_map.mp hix with ⟨d, hd, rfl⟩
  exact h d hd hmem

theorem concat_rows_keys {dfs : List DataFrame} (hwf : ∀ d ∈ dfs, d.WF) :
    ∀ p ∈ (concatCols dfs).rows, ∀ e ∈ p.2, ∃ d ∈ dfs, e.1 ∈ d.cols := by
  intro p hp e he
  rcases List.mem_map.mp hp with ⟨l, -, rfl⟩
  rcases List.mem_flatten.mp he with ⟨chunk, hchunk, hechunk⟩
  rcases List.mem_map.mp hchunk with ⟨d, hd, rfl⟩
  cases hfind : d.rows.find? fun q => q.1 == l with
  | none => rw [hfind] at hechunk; simp at hechunk
  | some q =>
      rw [hfind] at hechunk
      simp only [Option.map_some', Option.getD_some] at hechunk
      exact ⟨d, hd, hwf d hd q (List.mem_of_find?_eq_some hfind) e hechunk⟩

theorem workflow_rows_keys {srrs : List String} {sources : List DataFrame}
    (hwf : ∀ d ∈ sources, d.WF) :
    ∀ p ∈ (workflow_data srrs sources).rows, ∀ e ∈ p.2, ∃ d ∈ sources, e.1 ∈ d.cols := by
  intro p hp e he
  rw [workflow_data_rows] at hp
  rcases List.mem_map.mp hp with ⟨l, -, rfl⟩
  cases hfind : (concatCols sources).rows.find? fun q => q.1 == l with
  | none => rw [hfind] at he; simp at he
  | some q =>
      rw [hfind] at he
      simp only [Option.map_some', Option.getD_some] at he
      exact concat_rows_keys hwf q (List.mem_of_find?_eq_some hfind) e he

/-- C7: the loader's reindexing is a pure filter-plus-pad: its output index
is exactly the completion list (so run IDs outside it never appear), and a
completion-list run ID absent from every source appears with multiplicity
equal to its multiplicity in the list, every cell missing. -/
theorem claim_C7 (sources : List DataFrame) (srrs : List String) :
    ((workflow_data srrs sources).index = srrs) ∧
    (∀ l, l ∉ srrs → l ∉ (workflow_data srrs sources).index) ∧
    (∀ l ∈ srrs, (∀ d ∈ sources, l ∉ d.index) →
      (((workflow_data srrs sources).rows.filter fun p => p.1 == l).length
          = srrs.count l) ∧
      ∀ p ∈ (workflow_data srrs sources).rows, p.1 = l →
        ∀ c, Row.get p.2 c = Val.na) := by
  refine ⟨workflow_data_index srrs sources, ?_, ?_⟩
  · intro l hl
    rw [workflow_data_index]
    exact hl
  · intro l _ habs
    constructor
    · rw [workflow_data_rows, List.filter_map, List.length_map, List.count_eq_countP,
        List.countP_eq_length_filter]
      rfl
    · intro p hp hpl c
      rw [workflow_data_rows] at hp
      rcases List.mem_map.mp hp with ⟨l', -, rfl⟩
      have : l' = l := hpl
      subst this
      rw [concat_find_eq_none habs]
      rfl

/-- A small source frame whose only run `R9` is not in the completion
list. -/
def srcSmall : DataFrame :=
  { cols := ["aln_metric"]
    rows := [("R9", [("aln_metric", Val.num 5)])] }

/-- Witness for C7: completion list `[RX]`, one source containing only `R9`:
the output index is `[RX]`, `RX` appears once, all cells missing. -/
theorem claim_C7_witness :
    ((workflow_data ["RX"] [srcSmall]).index = ["RX"]) ∧
    (((workflow_data ["RX"] [srcSmall]).rows.filter fun p => p.1 == "RX").length
        = ["RX"].count "RX") ∧
    (∀ p ∈ (workflow_data ["RX"] [srcSmall]).rows, p.1 = "RX" →
      ∀ c, Row.get p.2 c = Val.na) :=
  ⟨(claim_C7 [srcSmall] ["RX"]).1,
   ((claim_C7 [srcSmall] ["RX"]).2.2 "RX" (by decide) (by decide)).1,
   ((claim_C7 [srcSmall] ["RX"]).2.2 "RX" (by decide) (by decide)).2⟩

/-- C8: the feature catalog's rename map is a bijection on its domain: the
catalog's internal names are distinct, the rename table maps each internal
name to exactly one public name with no two targets equal, and renaming the
catalog's columns (names outside the table passing through unchanged)
produces no duplicate column names. -/
theorem claim_C8 :
    (FEATURE_RENAME.map Prod.fst).Nodup ∧
    (FEATURE_RENAME.map Prod.snd).Nodup ∧
    (FEATURE_AGG.map Prod.fst).Nodup ∧
    ((FEATURE_AGG.map Prod.fst).map (renameOf FEATURE_RENAME)).Nodup := by
  decide

/-! ### The pipeline as an explicit bind chain -/

theorem bind_ok_apply {α β : Type} (a : α) (f : α → Except String β) :
    ((Except.ok a : Except String α) >>= f) = f a := rfl

theorem bind_error_apply {α β : Type} (e : String) (f : α → Except String β) :
    ((Except.error e : Except String α) >>= f) = Except.error e := rfl

theorem build_grouped_eq (sources : List DataFrame)
    (manifest : List (String × String)) (done_srrs : List String) :
    build_features_grouped sources manifest done_srrs
      = (aggregate_gene_body_coverage
          ((workflow_data done_srrs sources).join (srr_df_grouped manifest))
          >>= fun red => groupby_agg red "srx" FEATURE_AGG
          >>= fun ag => pure (renameCols ag FEATURE_RENAME)) := rfl

theorem build_ungrouped_eq (sources : List DataFrame) (done_srrs : List String) :
    build_features_ungrouped sources done_srrs
      = (aggregate_gene_body_coverage
          ((workflow_data done_srrs sources).join (srr_df_ungrouped done_srrs))
          >>= fun red => locCols red (FEATURE_AGG.map Prod.fst)
          >>= fun sel => pure (renameCols sel FEATURE_RENAME)) := rfl

/-- C9: a catalog column absent from the joined, coverage-reduced table makes
the pipeline fail (in either mode) rather than silently omitting the
feature, and a failed pipeline writes no artifact: the single output parquet
exists only when the whole pipeline succeeds. -/
theorem claim_C9 :
    (∀ (sources : List DataFrame) (manifest : List (String × String))
        (done_srrs : List String) (c : String) (red : DataFrame),
      c ∈ FEATURE_AGG.map Prod.fst →
      aggregate_gene_body_coverage
          ((workflow_data done_srrs sources).join (srr_df_grouped manifest))
        = Except.ok red →
      c ∉ red.cols →
      ∃ e, build_features_grouped sources manifest done_srrs = Except.error e) ∧
    (∀ (sources : List DataFrame) (done_srrs : List String) (c : String)
        (red : DataFrame),
      c ∈ FEATURE_AGG.map Prod.fst →
      aggregate_gene_body_coverage
          ((workflow_data done_srrs sources).join (srr_df_ungrouped done_srrs))
        = Except.ok red →
      c ∉ red.cols →
      ∃ e, build_features_ungrouped sources done_srrs = Except.error e) ∧
    (∀ r : Except String DataFrame, (∃ e, r = Except.error e) →
      writtenArtifacts r = []) := by
  refine ⟨?_, ?_, ?_⟩
  · intro sources manifest done_srrs c red hc hred hnc
    have hfail : ¬ ∀ s ∈ FEATURE_AGG, s.1 ∈ red.cols := by
      rcases List.mem_map.mp hc with ⟨s, hs, rfl⟩
      exact fun hall => hnc (hall s hs)
    refine ⟨"KeyError: agg column does not exist", ?_⟩
    rw [build_grouped_eq, hred, bind_ok_apply,
      groupby_agg_error_of _ _ _ hfail, bind_error_apply]
  · intro sources done_srrs c red hc hred hnc
    have hfail : ¬ ∀ c ∈ FEATURE_AGG.map Prod.fst, c ∈ red.cols :=
      fun hall => hnc (hall c hc)
    refine ⟨"KeyError: loc columns not in index", ?_⟩
    rw [build_ungrouped_eq, hred, bind_ok_apply,
      locCols_error_of _ _ hfail, bind_error_apply]
  · intro r hr
    rcases hr with ⟨e, rfl⟩
    rfl

/-- A source providing only the 101 position columns (no catalog column such
as `num_reads`). -/
def srcPos : DataFrame := { cols := posCols, rows := [] }

/-- The coverage-reduced joined table over `srcPos` with an empty manifest
and completion list. -/
def redPos : DataFrame :=
  (aggregate_gene_body_coverage
    ((workflow_data [] [srcPos]).join (srr_df_grouped []))).toOption.getD ⟨[], []⟩

/-- Witness for C9: with `num_reads` absent after reduction, the grouped
pipeline fails. -/
theorem claim_C9_witness :
    ∃ e, build_features_grouped [srcPos] [] [] = Except.error e :=
  claim_C9.1 [srcPos] [] [] "num_reads" redPos (by decide) (by rfl) (by decide)

/-! ### The C6 scenario: completion list [R1, R2, R3], manifest
R1→S1, R2→S1, R3→S2, and one source with num_reads 10 and 20 for R1, R2 -/

/-- The catalog columns an input table must provide (the three gene-body
tertiles are produced by the reducer instead). -/
def nonGeneCatalog : List String :=
  (FEATURE_AGG.map Prod.fst).filter fun c =>
    !(["gene_body_five_prime", "gene_body_middle", "gene_body_three_prime"].contains c)

/-- All-missing cells for the given columns. -/
def naCells (cs : List String) : Row := cs.map fun c => (c, Val.na)

/-- Source table A: rows for `R1` and `R2` with `num_reads` 10 and 20, every
other catalog and position cell missing; no row for `R3`. -/
def srcA : DataFrame :=
  { cols := nonGeneCatalog ++ posCols
    rows :=
      [("R1", ("num_reads", Val.num 10) ::
          naCells ((nonGeneCatalog.filter fun c => !(c == "num_reads")) ++ posCols)),
       ("R2", ("num_reads", Val.num 20) ::
          naCells ((nonGeneCatalog.filter fun c => !(c == "num_reads")) ++ posCols))] }

def maniC6 : List (String × String) := [("S1", "R1"), ("S1", "R2"), ("S2", "R3")]

def doneC6 : List String := ["R1", "R2", "R3"]

/-- The grouped-mode output for the C6 scenario. -/
def outC6G : DataFrame :=
  (build_features_grouped [srcA] maniC6 doneC6).toOption.getD ⟨[], []⟩

/-- The ungrouped-mode output for the same source and completion list. -/
def outC6U : DataFrame :=
  (build_features_ungrouped [srcA] doneC6).toOption.getD ⟨[], []⟩

theorem outC6G_shape :
    outC6G.rows.map (fun p => (p.1, Row.get p.2 "number_reads"))
      = [("S1", applyAgg AggFn.sum [Val.num 10, Val.num 20]),
         ("S2", applyAgg AggFn.sum [Val.na])] := rfl

theorem applyAgg_sum_pair :
    applyAgg AggFn.sum [Val.num 10, Val.num 20] = Val.num 30 := by
  show Val.num ((0 + 10 : ℚ) + 20) = Val.num 30
  norm_num

theorem applyAgg_sum_na_single : applyAgg AggFn.sum [Val.na] = Val.num 0 := rfl

/-- C6 counterexample: in the spec's concrete scenario the grouped pipeline
gives `S2` a `number_reads` of `0.0`, not a missing value (pandas `sum` over
a group with no contributing values yields 0). -/
theorem claim_C6_counterexample :
    (((build_features_grouped [srcA] maniC6 doneC6).toOption.map fun out =>
        out.rows.map fun p => (p.1, Row.get p.2 "number_reads"))
      = some [("S1", Val.num 30), ("S2", Val.num 0)])
    ∧ Val.num 0 ≠ Val.na := by
  constructor
  · have hb : build_features_grouped [srcA] maniC6 doneC6 = Except.ok outC6G := rfl
    rw [hb]
    show some (outC6G.rows.map fun p => (p.1, Row.get p.2 "number_reads")) = _
    rw [outC6G_shape, applyAgg_sum_pair, applyAgg_sum_na_single]
  · decide

/-- C6 (amended): in grouped mode each catalog column is reduced over the
group by its declared function; in the concrete scenario the output has two
rows, `S1` with `number_reads = 30`, and `S2` with `number_reads = 0.0` (not
missing: the sum of no contributing values is 0). -/
theorem claim_C6 :
    (∀ (df : DataFrame) (key : String) (spec : List (String × AggFn))
        (out : DataFrame),
      groupby_agg df key spec = Except.ok out →
      out.rows = (groupKeys df key).map fun k =>
        (valLabel k,
         spec.map fun s =>
           (s.1, applyAgg s.2
             (((df.rows.filter fun p => Row.get p.2 key == k).map
                fun p => Row.get p.2 s.1))))) ∧
    (((build_features_grouped [srcA] maniC6 doneC6).toOption.map fun out =>
        out.rows.map fun p => (p.1, Row.get p.2 "number_reads"))
      = some [("S1", Val.num 30), ("S2", Val.num 0)]) := by
  constructor
  · intro df key spec out h
    rw [(groupby_agg_ok_inv h).2]
  · have hb : build_features_grouped [srcA] maniC6 doneC6 = Except.ok outC6G := rfl
    rw [hb]
    show some (outC6G.rows.map fun p => (p.1, Row.get p.2 "number_reads")) = _
    rw [outC6G_shape, applyAgg_sum_pair, applyAgg_sum_na_single]

/-! ### Row counts of the full pipeline (C5) -/

theorem renameCols_rows_length (df : DataFrame) (m : List (String × String)) :
    (renameCols df m).rows.length = df.rows.length := by
  simp [renameCols]

theorem srr_df_find (manifest : List (String × String)) (l : String) :
    ((srr_df_grouped manifest).rows.find? fun q => q.1 == l)
      = ((manifest.find? fun p => p.2 == l).map fun p =>
          (p.2, [("srx", Val.str p.1), ("srr", Val.str p.2)])) := by
  show ((manifest.map fun p =>
      (p.2, [("srx", Val.str p.1), ("srr", Val.str p.2)])).find? fun q => q.1 == l) = _
  rw [List.find?_map]
  rfl

theorem get_srx_joined {sources : List DataFrame} {done_srrs : List String}
    {manifest : List (String × String)}
    (hwf : ∀ d ∈ sources, d.WF) (hsrx : ∀ d ∈ sources, "srx" ∉ d.cols) :
    (((workflow_data done_srrs sources).join (srr_df_grouped manifest)).rows.map
        fun p => Row.get p.2 "srx")
      = done_srrs.map fun l =>
          match manifest.find? fun p => p.2 == l with
          | some p => Val.str p.1
          | none => Val.na := by
  show (((workflow_data done_srrs sources).rows.map fun p =>
      (p.1, p.2 ++ ((((srr_df_grouped manifest).rows.find?
        fun q => q.1 == p.1).map Prod.snd).getD []))).map
          fun p => Row.get p.2 "srx") = _
  rw [List.map_map, workflow_data_rows, List.map_map]
  refine List.map_congr_left fun l hl => ?_
  simp only [Function.comp]
  have hmemw : (l, (((concatCols sources).rows.find?
      fun p => p.1 == l).map Prod.snd).getD [])
      ∈ (workflow_data done_srrs sources).rows := by
    rw [workflow_data_rows]
    exact List.mem_map.mpr ⟨l, hl, rfl⟩
  have hkeys : ∀ e ∈ (((concatCols sources).rows.find?
      fun p => p.1 == l).map Prod.snd).getD [], e.1 ≠ "srx" := by
    intro e he hsx
    rcases workflow_rows_keys hwf _ hmemw e he with ⟨d, hd, hcol⟩
    exact hsrx d hd (hsx ▸ hcol)
  rw [Row.get_append_right _ _ _ hkeys, srr_df_find]
  cases hf : manifest.find? fun p => p.2 == l with
  | none => rfl
  | some p => rfl

theorem dedup_keys_count (manifest : List (String × String)) (done : List String)
    (hnd : (manifest.map Prod.snd).Nodup) :
    ((done.map fun l =>
        match manifest.find? fun p => p.2 == l with
        | some p => Val.str p.1
        | none => Val.na).filter fun v => v ≠ Val.na).dedup.length
      = ((manifest.filter fun p => done.contains p.2).map
          fun p => Val.str p.1).dedup.length := by
  rw [← List.card_toFinset, ← List.card_toFinset]
  congr 1
  ext v
  simp only [List.mem_toFinset]
  constructor
  · intro hv
    rcases List.mem_filter.mp hv with ⟨hvm, hP⟩
    have hvna : v ≠ Val.na := by simpa using hP
    rcases List.mem_map.mp hvm with ⟨l, hld, hfl⟩
    rcases hf : manifest.find? fun p => p.2 == l with - | p
    · rw [hf] at hfl
      exact absurd hfl.symm hvna
    · rw [hf] at hfl
      have hp : p ∈ manifest := List.mem_of_find?_eq_some hf
      have hpl : p.2 = l := by simpa using List.find?_some hf
      refine List.mem_map.mpr ⟨p, List.mem_filter.mpr ⟨hp, ?_⟩, hfl⟩
      rw [hpl]
      simpa using hld
  · intro hv
    rcases List.mem_map.mp hv with ⟨p, hpf, rfl⟩
    rcases List.mem_filter.mp hpf with ⟨hp, hpd⟩
    have hp2 : p.2 ∈ done := by simpa using hpd
    refine List.mem_filter.mpr ⟨List.mem_map.mpr ⟨p.2, hp2, ?_⟩, by simp⟩
    rcases hf : manifest.find? fun q => q.2 == p.2 with - | q
    · exfalso
      have := List.find?_eq_none.mp hf p hp
      simp at this
    · have hq : q ∈ manifest := List.mem_of_find?_eq_some hf
      have hq2 : q.2 = p.2 := by simpa using List.find?_some hf
      have heq : q = p := List.inj_on_of_nodup_map hnd hq hp hq2
      rw [hf]
      show Val.str q.1 = Val.str p.1
      rw [heq]

/-- C5: in grouped mode (two-column manifest) the output has one row per
distinct sample ID occurring in the manifest restricted to the completion
list (under a well-formed manifest: no duplicate `srr`, sources indexed by
run with no `srx` column of their own); in ungrouped mode (one-column
manifest) it has one row per completion-list entry. -/
theorem claim_C5 :
    (∀ (sources : List DataFrame) (manifest : List (String × String))
        (done_srrs : List String) (out : DataFrame),
      (manifest.map Prod.snd).Nodup →
      (∀ d ∈ sources, d.WF) →
      (∀ d ∈ sources, "srx" ∉ d.cols) →
      build_features_grouped sources manifest done_srrs = Except.ok out →
      out.rows.length
        = ((manifest.filter fun p => done_srrs.contains p.2).map
            fun p => Val.str p.1).dedup.length) ∧
    (∀ (sources : List DataFrame) (done_srrs : List String) (out : DataFrame),
      build_features_ungrouped sources done_srrs = Except.ok out →
      out.rows.length = done_srrs.length) := by
  constructor
  · intro sources manifest done_srrs out hnd hwf hsrx hok
    rw [build_grouped_eq] at hok
    obtain ⟨red, hred, hok⟩ := except_bind_ok hok
    obtain ⟨ag, hag, hpure⟩ := except_bind_ok hok
    have hout : out = renameCols ag FEATURE_RENAME :=
      (Except.ok.inj (show Except.ok (renameCols ag FEATURE_RENAME)
        = Except.ok out from hpure)).symm
    subst hout
    rw [renameCols_rows_length, (groupby_agg_ok_inv hag).2, List.length_map]
    obtain ⟨-, hredstruct⟩ := aggregate_ok_inv hred
    subst hredstruct
    show ((((((workflow_data done_srrs sources).join
        (srr_df_grouped manifest)).rows.map fun p =>
          (p.1, gbRowDropped p.2)).map fun p => Row.get p.2 "srx").filter
            fun v => v ≠ Val.na).dedup).length = _
    rw [List.map_map]
    have hsame : (((workflow_data done_srrs sources).join
        (srr_df_grouped manifest)).rows.map
          ((fun p => Row.get p.2 "srx") ∘ fun p => (p.1, gbRowDropped p.2)))
        = (((workflow_data done_srrs sources).join
            (srr_df_grouped manifest)).rows.map fun p => Row.get p.2 "srx") := by
      refine List.map_congr_left fun p _ => ?_
      simp only [Function.comp]
      exact gbRowDropped_get_other p.2 "srx" (by decide) (by decide) (by decide)
        (by decide)
    rw [hsame, get_srx_joined hwf hsrx]
    exact dedup_keys_count manifest done_srrs hnd
  · intro sources done_srrs out hok
    rw [build_ungrouped_eq] at hok
    obtain ⟨red, hred, hok⟩ := except_bind_ok hok
    obtain ⟨sel, hsel, hpure⟩ := except_bind_ok hok
    have hout : out = renameCols sel FEATURE_RENAME :=
      (Except.ok.inj (show Except.ok (renameCols sel FEATURE_RENAME)
        = Except.ok out from hpure)).symm
    subst hout
    rw [renameCols_rows_length, (locCols_ok_inv hsel).2, List.length_map]
    obtain ⟨-, hredstruct⟩ := aggregate_ok_inv hred
    subst hredstruct
    show ((((workflow_data done_srrs sources).join
        (srr_df_ungrouped done_srrs)).rows.map fun p =>
          (p.1, gbRowDropped p.2)).length) = _
    rw [List.length_map]
    show (((workflow_data done_srrs sources).rows.map fun p =>
      (p.1, p.2 ++ _)).length) = _
    rw [List.length_map, workflow_data_rows, List.length_map]

/-- Witness for C5 in both modes, on the C6 scenario data. -/
theorem claim_C5_witness :
    (outC6G.rows.length
      = ((maniC6.filter fun p => doneC6.contains p.2).map
          fun p => Val.str p.1).dedup.length) ∧
    outC6U.rows.length = doneC6.length :=
  ⟨claim_C5.1 [srcA] maniC6 doneC6 outC6G (by decide) (by decide) (by decide)
     (by rfl),
   claim_C5.2 [srcA] doneC6 outC6U (by rfl)⟩

/-- A tiny grouped table for the C6 witness. -/
def dfTiny : DataFrame :=
  { cols := ["srx", "num_reads"]
    rows := [("R1", [("srx", Val.str "S1"), ("num_reads", Val.num 10)]),
             ("R2", [("srx", Val.str "S1"), ("num_reads", Val.num 20)]),
             ("R3", [("srx", Val.str "S2"), ("num_reads", Val.na)])] }

/-- The aggregation of `dfTiny` by `srx` under a one-column catalog. -/
def agTiny : DataFrame :=
  (groupby_agg dfTiny "srx" [("num_reads", AggFn.sum)]).toOption.getD ⟨[], []⟩

/-- Witness for C6's general conjunct at `dfTiny`. -/
theorem claim_C6_witness :
    agTiny.rows = (groupKeys dfTiny "srx").map fun k =>
      (valLabel k,
       [("num_reads", AggFn.sum)].map fun s =>
         (s.1, applyAgg s.2
           (((dfTiny.rows.filter fun p => Row.get p.2 "srx" == k).map
              fun p => Row.get p.2 s.1)))) :=
  claim_C6.1 dfTiny "srx" [("num_reads", AggFn.sum)] agTiny (by rfl)

end MassiveQC
